import Mathlib

/-!
Shallow embedding of the synthesis pipeline in `src/main.py`
(class `NewsSynthesizer`).

Python has two definitions of `process_feeds`; the second one
(line 183) overrides the first, so the effective pipeline embedded here
is the second definition.  Model-service calls, article extraction and
feed parsing are external effects: they are abstracted as oracle
functions `Nat → Except Unit String` (attempt index ↦ raised exception
or returned content string), while all control flow around them
(retries, validation, backoff, fallback, per-cluster error handling) is
translated faithfully from the source.
-/

/-- Python substring helper: does `text` start with `pat`?  Models the
initial-segment part of the `in` operator on `str`. -/
def charsLead : List Char → List Char → Bool
  | [], _ => true
  | _ :: _, [] => false
  | a :: as, b :: bs => a == b && charsLead as bs

/-- Python `pat in text` on character lists: `pat` occurs contiguously in
`text`. -/
def charsContains (pat : List Char) : List Char → Bool
  | [] => charsLead pat []
  | c :: cs => charsLead pat (c :: cs) || charsContains pat cs

/-- Python `pat in text` for strings (substring containment). -/
def strContains (text pat : String) : Bool :=
  charsContains pat.data text.data

/-- Whitespace characters removed by Python `str.strip()` (ASCII subset:
space, tab, newline, carriage return, vertical tab, form feed). -/
def isSpaceChar (c : Char) : Bool :=
  c == ' ' || c == '\t' || c == '\n' || c == '\r' ||
    c == Char.ofNat 11 || c == Char.ofNat 12

/-- Drop leading whitespace from a character list. -/
def dropLeadingSpace : List Char → List Char
  | [] => []
  | c :: cs => if isSpaceChar c then dropLeadingSpace cs else c :: cs

/-- Python `s.strip()`: remove leading and trailing whitespace. -/
def pyStrip (s : String) : String :=
  String.mk (dropLeadingSpace (dropLeadingSpace s.data.reverse).reverse)

/-- Python slice `s[:n]`: the first `n` characters of `s`. -/
def pySlice (s : String) (n : Nat) : String :=
  String.mk (s.data.take n)

/-- Python list indexing `l[i]`, including negative wrap-around; `none`
models an `IndexError`. -/
def pyGet {α : Type} (l : List α) (i : Int) : Option α :=
  if 0 ≤ i then l.get? i.toNat
  else if 0 ≤ (l.length : Int) + i then l.get? ((l.length : Int) + i).toNat
  else none

/-- Sentinel returned by `_llm_generate` after all retries are exhausted
(`src/main.py` line 181). -/
def llmFailureSentinel : String :=
  "⚠️ Content generation failed after multiple attempts"

/-- Instrumented result of one `_llm_generate` call: the returned string,
the number of model-service invocations, and the list of backoff delays
slept (in seconds, as exact rationals). -/
structure LlmResult where
  value : String
  calls : Nat
  sleeps : List ℚ
deriving DecidableEq

/-- Retry loop of `_llm_generate` (`src/main.py` lines 160-181).
`oracle a` is the outcome of the model-service invocation at attempt
index `a`: `.error ()` if the attempt raised, `.ok content` for the
string `response.get` yields.  A truthy (nonempty after strip) content
is returned at once; an empty content falls through without sleeping; an
exception logs and sleeps `1.5 ^ attempt` seconds.  `fuel` is the number
of remaining attempts. -/
def llmGenerateAux (oracle : Nat → Except Unit String) :
    Nat → Nat → LlmResult
  | 0, _ => ⟨llmFailureSentinel, 0, []⟩
  | fuel + 1, attempt =>
    match oracle attempt with
    | Except.ok content =>
      if pyStrip content ≠ "" then ⟨content, 1, []⟩
      else
        let r := llmGenerateAux oracle fuel (attempt + 1)
        ⟨r.value, r.calls + 1, r.sleeps⟩
    | Except.error _ =>
      let r := llmGenerateAux oracle fuel (attempt + 1)
      ⟨r.value, r.calls + 1, ((3 : ℚ) / 2) ^ attempt :: r.sleeps⟩

/-- `_llm_generate` with its default budget `retries=3`. -/
def llmGenerate (oracle : Nat → Except Unit String) : LlmResult :=
  llmGenerateAux oracle 3 0

/-- The four required section markers checked by `_validate_report`
(`src/main.py` lines 154-157). -/
def requiredSections : List String :=
  ["Verified Facts", "Conflict Analysis", "Further Research Needed",
    "Conclusion"]

/-- `_validate_report`: all four section markers occur as exact
substrings. -/
def validateReport (text : String) : Bool :=
  requiredSections.all fun s => strContains text s

/-- Failure marker returned by `generate_unified_report` after
`MAX_RETRIES` exhausted attempts (`src/main.py` line 152). -/
def reportFailureMarker : String :=
  "Could not generate complete report"

/-- Instrumented result of one `generate_unified_report` call: the
returned string, the number of `_llm_generate` invocations, and the
backoff delays slept. -/
structure ReportResult where
  value : String
  llmCalls : Nat
  sleeps : List ℚ
deriving DecidableEq

/-- Retry loop of `generate_unified_report` (`src/main.py` lines
129-152).  `oracle a` is the outcome of the `_llm_generate` call at
attempt `a` (`.error` models an exception inside the `try` block).  A
response passing `_validate_report` is returned immediately; otherwise
the loop sleeps `2 ^ attempt` seconds (the sleep sits outside the
`try`/`except`, so it runs on both the invalid-response path and the
exception path) and continues; after `MAX_RETRIES = 3` failed attempts
the failure marker is returned. -/
def generateUnifiedReportAux (oracle : Nat → Except Unit String) :
    Nat → Nat → ReportResult
  | 0, _ => ⟨reportFailureMarker, 0, []⟩
  | fuel + 1, attempt =>
    match oracle attempt with
    | Except.ok response =>
      if validateReport response then ⟨response, 1, []⟩
      else
        let r := generateUnifiedReportAux oracle fuel (attempt + 1)
        ⟨r.value, r.llmCalls + 1, (2 : ℚ) ^ attempt :: r.sleeps⟩
    | Except.error _ =>
      let r := generateUnifiedReportAux oracle fuel (attempt + 1)
      ⟨r.value, r.llmCalls + 1, (2 : ℚ) ^ attempt :: r.sleeps⟩

/-- `generate_unified_report` with `MAX_RETRIES = 3`. -/
def generateUnifiedReport (oracle : Nat → Except Unit String) :
    ReportResult :=
  generateUnifiedReportAux oracle 3 0

/-- A collected article record (`src/main.py` lines 195-199). -/
structure Article where
  title : String
  source : String
  content : String
deriving DecidableEq

/-- Dynamic (Python) values that can flow out of `_llm_generate` or be
probed by the cluster-validation code: strings, integers, lists and
string-keyed dicts.  Only enough of Python dynamic typing to express the
`isinstance` probes at `src/main.py` lines 212-214. -/
inductive PyVal where
  | pstr : String → PyVal
  | pint : Int → PyVal
  | plist : List PyVal → PyVal
  | pdict : List (String × PyVal) → PyVal

/-- `isinstance(v, dict)`. -/
def PyVal.isDict : PyVal → Bool
  | .pdict _ => true
  | _ => false

/-- `isinstance(v, int)`. -/
def PyVal.isInt : PyVal → Bool
  | .pint _ => true
  | _ => false

/-- The integer payload of a `PyVal`, when it is one. -/
def PyVal.asInt : PyVal → Option Int
  | .pint i => some i
  | _ => none

/-- Cluster-format validation (`src/main.py` lines 210-215): if the
clustering result is a dict with a `groups` key, keep exactly the groups
that are lists of integers; any other shape yields no valid group.
(Iterating a non-list `groups` value would raise in Python; that value
shape never occurs, since the argument is always a string.) -/
def validClustersOf (clusters : PyVal) : List (List Int) :=
  match clusters with
  | .pdict kvs =>
    match kvs.lookup "groups" with
    | some (.plist groups) =>
      groups.filterMap fun g =>
        match g with
        | .plist items =>
          if items.all PyVal.isInt then some (items.filterMap PyVal.asInt)
          else none
        | _ => none
    | _ => []
  | _ => []

/-- The fallback partition `[[i] for i in range(n)]` (`src/main.py`
line 219). -/
def singletonPartition (n : Nat) : List (List Int) :=
  (List.range n).map fun i : Nat => [(i : Int)]

/-- Cluster formation (`src/main.py` lines 210-219): validate the
clustering value, then fall back to the singleton partition when no
valid group survives. -/
def clusterFormation (n : Nat) (clusters : PyVal) : List (List Int) :=
  let valid := validClustersOf clusters
  if valid.isEmpty then singletonPartition n else valid

/-- Per-feed article collection (`src/main.py` lines 192-199): for each
of the first 5 entries `(title, extracted content)`, keep the article
when the content is truthy and longer than 100 characters, truncating
the stored content to 2000 characters. -/
def feedCollect (feedName : String) (entries : List (String × String)) :
    List Article :=
  (entries.take 5).foldr
    (fun e acc =>
      if e.2 ≠ "" ∧ e.2.length > 100 then
        ⟨e.1, feedName, pySlice e.2 2000⟩ :: acc
      else acc)
    []

/-- The guard of the selection comprehension
`[all_articles[i] for i in group if i < len(all_articles)]`
(`src/main.py` line 225): keep the indices below the article count. -/
def selectionFilter (nArticles : Nat) (group : List Int) : List Int :=
  group.filter fun i => i < (nArticles : Int)

/-- Article selection (`src/main.py` line 225): index the collected
article list at each index passing the guard; a Python `IndexError`
(index too negative) becomes `.error`. -/
def selectArticles (allArticles : List Article) (group : List Int) :
    Except Unit (List Article) :=
  (selectionFilter allArticles.length group).mapM fun i =>
    match pyGet allArticles i with
    | some a => Except.ok a
    | none => Except.error ()

/-- Report generation plus the short-report quality gate
(`src/main.py` lines 227-232): call `generate_unified_report`, and when
the result is shorter than 400 characters regenerate exactly once.
`gen k` is the attempt oracle of the `k`-th `generate_unified_report`
call; the second component counts those calls. -/
def reportWithRegen (gen : Nat → Nat → Except Unit String) :
    String × Nat :=
  let r0 := (generateUnifiedReport (gen 0)).value
  if r0.length < 400 then ((generateUnifiedReport (gen 1)).value, 2)
  else (r0, 1)

/-- A record appended to `final_reports` (`src/main.py` lines 237-241).
Python builds `sources` as a set; it is modelled as the deduplicated
source list. -/
structure ClusterRecord where
  headline : String
  sources : List String
  report : String
deriving DecidableEq

/-- Body of the per-cluster `try` block (`src/main.py` lines 224-241):
select the articles of the group, run the analysis stage (abstracted as
an oracle on the selected contents, `.error` modelling a raised
exception), generate the report with the short-report regeneration,
skip the cluster (`.ok none`) when the report strips to empty, and
otherwise build the record — where `articles[0]` raises when the
selection is empty. -/
def clusterBody (allArticles : List Article)
    (analyze : List String → Except Unit String)
    (gen : Nat → Nat → Except Unit String) (group : List Int) :
    Except Unit (Option ClusterRecord) := do
  let articles ← selectArticles allArticles group
  let _analysis ← analyze (articles.map fun a => a.content)
  let report := (reportWithRegen gen).1
  if pyStrip report = "" then return none
  else
    match articles.get? 0 with
    | none => Except.error ()
    | some a0 =>
      return some ⟨a0.title, (articles.map fun a => a.source).dedup, report⟩

/-- One cluster task of the orchestrator loop: the analysis-stage oracle,
the report-generation oracle, and the index group. -/
abbrev ClusterTask : Type :=
  (List String → Except Unit String) × (Nat → Nat → Except Unit String) ×
    List Int

/-- The orchestrator loop over the valid clusters (`src/main.py` lines
221-243): run each cluster body inside `try`/`except`; an exception or
an empty-stripping report skips the cluster, a produced record is
appended, and the loop always continues with the remaining clusters. -/
def processValidClusters (allArticles : List Article) :
    List ClusterTask → List ClusterRecord
  | [] => []
  | (an, gen, g) :: rest =>
    match clusterBody allArticles an gen g with
    | Except.ok (some r) => r :: processValidClusters allArticles rest
    | _ => processValidClusters allArticles rest

theorem llmGenerateAux_calls_le (o : Nat → Except Unit String) :
    ∀ fuel a, (llmGenerateAux o fuel a).calls ≤ fuel := by
  intro fuel
  induction fuel with
  | zero => intro a; exact Nat.le_refl 0
  | succ n ih =>
    intro a
    cases h : o a with
    | ok content =>
      simp only [llmGenerateAux, h]
      split
      · exact Nat.succ_le_succ (Nat.zero_le n)
      · exact Nat.succ_le_succ (ih (a + 1))
    | error e =>
      simp only [llmGenerateAux, h]
      exact Nat.succ_le_succ (ih (a + 1))

theorem generateUnifiedReportAux_calls_le (o : Nat → Except Unit String) :
    ∀ fuel a, (generateUnifiedReportAux o fuel a).llmCalls ≤ fuel := by
  intro fuel
  induction fuel with
  | zero => intro a; exact Nat.le_refl 0
  | succ n ih =>
    intro a
    cases h : o a with
    | ok response =>
      simp only [generateUnifiedReportAux, h]
      split
      · exact Nat.succ_le_succ (Nat.zero_le n)
      · exact Nat.succ_le_succ (ih (a + 1))
    | error e =>
      simp only [generateUnifiedReportAux, h]
      exact Nat.succ_le_succ (ih (a + 1))

theorem llmGenerateAux_sleeps_sorted (o : Nat → Except Unit String) :
    ∀ fuel a, (llmGenerateAux o fuel a).sleeps.Sorted (· ≤ ·) ∧
      ∀ x ∈ (llmGenerateAux o fuel a).sleeps, ((3 : ℚ) / 2) ^ a ≤ x := by
  intro fuel
  induction fuel with
  | zero =>
    intro a
    exact ⟨List.sorted_nil, by intro x hx; simp [llmGenerateAux] at hx⟩
  | succ n ih =>
    intro a
    have hstep : ((3 : ℚ) / 2) ^ a ≤ ((3 : ℚ) / 2) ^ (a + 1) :=
      pow_le_pow_right₀ (by norm_num) (Nat.le_succ a)
    cases h : o a with
    | ok content =>
      simp only [llmGenerateAux, h]
      split
      · exact ⟨List.sorted_nil, by intro x hx; simp at hx⟩
      · exact ⟨(ih (a + 1)).1,
          fun x hx => le_trans hstep ((ih (a + 1)).2 x hx)⟩
    | error e =>
      simp only [llmGenerateAux, h]
      refine ⟨List.sorted_cons.mpr
        ⟨fun b hb => le_trans hstep ((ih (a + 1)).2 b hb), (ih (a + 1)).1⟩,
        ?_⟩
      intro x hx
      rcases List.mem_cons.mp hx with hx | hx
      · exact hx ▸ le_refl _
      · exact le_trans hstep ((ih (a + 1)).2 x hx)

theorem generateUnifiedReportAux_sleeps_sorted
    (o : Nat → Except Unit String) :
    ∀ fuel a, (generateUnifiedReportAux o fuel a).sleeps.Sorted (· ≤ ·) ∧
      ∀ x ∈ (generateUnifiedReportAux o fuel a).sleeps, (2 : ℚ) ^ a ≤ x := by
  intro fuel
  induction fuel with
  | zero =>
    intro a
    exact ⟨List.sorted_nil,
      by intro x hx; simp [generateUnifiedReportAux] at hx⟩
  | succ n ih =>
    intro a
    have hstep : (2 : ℚ) ^ a ≤ (2 : ℚ) ^ (a + 1) :=
      pow_le_pow_right₀ (by norm_num) (Nat.le_succ a)
    have hcons :
        (((2 : ℚ) ^ a ::
            (generateUnifiedReportAux o n (a + 1)).sleeps).Sorted (· ≤ ·)) ∧
        ∀ x ∈ (2 : ℚ) ^ a ::
            (generateUnifiedReportAux o n (a + 1)).sleeps,
          (2 : ℚ) ^ a ≤ x := by
      refine ⟨List.sorted_cons.mpr
        ⟨fun b hb => le_trans hstep ((ih (a + 1)).2 b hb), (ih (a + 1)).1⟩,
        ?_⟩
      intro x hx
      rcases List.mem_cons.mp hx with hx | hx
      · exact hx ▸ le_refl _
      · exact le_trans hstep ((ih (a + 1)).2 x hx)
    cases h : o a with
    | ok response =>
      simp only [generateUnifiedReportAux, h]
      split
      · exact ⟨List.sorted_nil, by intro x hx; simp at hx⟩
      · exact hcons
    | error e =>
      simp only [generateUnifiedReportAux, h]
      exact hcons

theorem generateUnifiedReportAux_value_cases
    (o : Nat → Except Unit String) :
    ∀ fuel a,
      (generateUnifiedReportAux o fuel a).value = reportFailureMarker ∨
      validateReport (generateUnifiedReportAux o fuel a).value = true := by
  intro fuel
  induction fuel with
  | zero => intro a; exact Or.inl rfl
  | succ n ih =>
    intro a
    cases h : o a with
    | ok response =>
      simp only [generateUnifiedReportAux, h]
      split
      · next hv => exact Or.inr hv
      · exact ih (a + 1)
    | error e =>
      simp only [generateUnifiedReportAux, h]
      exact ih (a + 1)

theorem clusterFormation_pstr (response : String) (n : Nat) :
    clusterFormation n (PyVal.pstr response) = singletonPartition n := rfl

theorem processValidClusters_append (allArticles : List Article) :
    ∀ xs ys : List ClusterTask,
      processValidClusters allArticles (xs ++ ys) =
        processValidClusters allArticles xs ++
          processValidClusters allArticles ys := by
  intro xs
  induction xs with
  | nil => intro ys; rfl
  | cons c rest ih =>
    intro ys
    obtain ⟨an, gen, g⟩ := c
    cases h : clusterBody allArticles an gen g with
    | ok r =>
      cases r with
      | some rec =>
        simp only [List.cons_append, processValidClusters, h, List.append_eq,
          ih]
      | none =>
        simp only [List.cons_append, processValidClusters, h, List.append_eq,
          ih]
    | error e =>
      simp only [List.cons_append, processValidClusters, h, List.append_eq,
        ih]

/-- Claim C1, code divergence: a cluster whose report generation fails
validation on every attempt (of both the initial call and the
length-triggered regeneration) yields the failure marker, and the
orchestrator still appends that cluster's record — report field equal to
`reportFailureMarker` — to the returned final report list, because the
marker is nonempty and so survives the `if not report.strip(): continue`
guard.  The claim (and the spec) say the cluster must be excluded and
the marker never placed in the output list. -/
theorem c1_failure_marker_reaches_output :
    processValidClusters [⟨"headline", "BBC News", "body text"⟩]
      [(fun _ => Except.ok "analysis payload",
        fun _ _ => Except.ok "unstructured response", [0])] =
    [⟨"headline", ["BBC News"], reportFailureMarker⟩] := by decide

/-- Claim C2: the clustering response is the raw string returned by
`_llm_generate` (both of its return statements yield strings), it is
never JSON-decoded, so `isinstance(clusters, dict)` is false for every
possible model response and cluster formation always yields the
singleton partition, regardless of the model's output. -/
theorem c2_clustering_ignores_model_output
    (oracle : Nat → Except Unit String) (n : Nat) :
    PyVal.isDict (PyVal.pstr (llmGenerate oracle).value) = false ∧
    clusterFormation n (PyVal.pstr (llmGenerate oracle).value) =
      singletonPartition n :=
  ⟨rfl, clusterFormation_pstr _ _⟩

/-- Claim C3: for any model clustering response string — in particular
malformed JSON, JSON lacking the `groups` key, or a grouping with
non-integer or out-of-range indices, all of which are such strings —
cluster formation returns exactly the singleton partition
`[[0],[1],...,[N-1]]`, deterministically and independently of any prior
model output.  (The statement holds for every response string, which
subsumes every malformation listed in the claim.) -/
theorem c3_cluster_fallback_deterministic (response : String) (n : Nat) :
    clusterFormation n (PyVal.pstr response) = singletonPartition n :=
  clusterFormation_pstr response n

/-- Claim C4: `generate_unified_report` never returns a string lacking
any of the four required section markers, unless the returned value is
the explicit exhausted-failure marker string. -/
theorem c4_report_validation_completeness
    (oracle : Nat → Except Unit String) :
    (generateUnifiedReport oracle).value = reportFailureMarker ∨
    validateReport (generateUnifiedReport oracle).value = true :=
  generateUnifiedReportAux_value_cases oracle 3 0

/-- Claim C5: per logical request, `generate_unified_report` performs at
most 3 `_llm_generate` calls, and `_llm_generate` performs at most 3
model-service invocations. -/
theorem c5_retry_bound (ro lo : Nat → Except Unit String) :
    (generateUnifiedReport ro).llmCalls ≤ 3 ∧ (llmGenerate lo).calls ≤ 3 :=
  ⟨generateUnifiedReportAux_calls_le ro 3 0, llmGenerateAux_calls_le lo 3 0⟩

/-- Claim C6: within one logical call the successive backoff delays —
`2 ^ attempt` seconds in `generate_unified_report` and `1.5 ^ attempt`
seconds in `_llm_generate`, as recorded in the instrumented sleep
lists — are non-decreasing. -/
theorem c6_backoff_nondecreasing (ro lo : Nat → Except Unit String) :
    (generateUnifiedReport ro).sleeps.Sorted (· ≤ ·) ∧
    (llmGenerate lo).sleeps.Sorted (· ≤ ·) :=
  ⟨(generateUnifiedReportAux_sleeps_sorted ro 3 0).1,
    (llmGenerateAux_sleeps_sorted lo 3 0).1⟩

/-- Claim C7: an exception raised while processing one cluster (during
selection, analysis or report generation) is caught by the per-cluster
`try`/`except`, and the remaining clusters are still processed and
contribute their reports: the final list is exactly the concatenation of
the contributions of the clusters before and after the failing one. -/
theorem c7_cluster_error_isolated (allArticles : List Article)
    (xs ys : List ClusterTask)
    (an : List String → Except Unit String)
    (gen : Nat → Nat → Except Unit String) (g : List Int)
    (h : clusterBody allArticles an gen g = Except.error ()) :
    processValidClusters allArticles (xs ++ (an, gen, g) :: ys) =
      processValidClusters allArticles xs ++
        processValidClusters allArticles ys := by
  have hskip : processValidClusters allArticles ((an, gen, g) :: ys) =
      processValidClusters allArticles ys := by
    simp only [processValidClusters]
    rw [h]
  rw [processValidClusters_append allArticles xs ((an, gen, g) :: ys), hskip]

/-- Witness for C7 at a concrete failing cluster (analysis raises)
followed by a concrete succeeding cluster. -/
theorem c7_cluster_error_isolated_witness :
    processValidClusters [⟨"T", "S", "body"⟩]
        ([] ++ (fun _ => Except.error (), fun _ _ => Except.ok "r", [0]) ::
          [(fun _ => Except.ok "analysis", fun _ _ => Except.ok "r", [0])]) =
      processValidClusters [⟨"T", "S", "body"⟩] [] ++
        processValidClusters [⟨"T", "S", "body"⟩]
          [(fun _ => Except.ok "analysis", fun _ _ => Except.ok "r", [0])] :=
  c7_cluster_error_isolated [⟨"T", "S", "body"⟩] []
    [(fun _ => Except.ok "analysis", fun _ _ => Except.ok "r", [0])]
    (fun _ => Except.error ()) (fun _ _ => Except.ok "r") [0] rfl

/-- Claim C8, counterexample: the selection guard `i < len(all_articles)`
does not filter out the negative index `-1` for a single-article list,
even though `-1` is outside the range `[0, len(all_articles))` — so
out-of-range indices are not all filtered out defensively as the claim
states. -/
theorem c8_counterexample_negative_passes_guard :
    selectionFilter 1 [-1] = [-1] ∧ ¬ (0 ≤ (-1 : Int)) := by decide

/-- Claim C8 as amended: the guard removes only indices at or above the
article count and would let negative indices through, but in the
effective pipeline every cluster group comes from the singleton fallback
partition, so every index of every group — and hence every index passing
the guard and used for article selection — lies in
`[0, len(all_articles))`. -/
theorem c8_effective_indices_in_range
    (oracle : Nat → Except Unit String) (n : Nat) (g : List Int) (i : Int)
    (hg : g ∈ clusterFormation n (PyVal.pstr (llmGenerate oracle).value))
    (hi : i ∈ g) :
    0 ≤ i ∧ i < (n : Int) ∧ i ∈ selectionFilter n g := by
  rw [clusterFormation_pstr] at hg
  unfold singletonPartition at hg
  rcases List.mem_map.mp hg with ⟨k, hk, hgk⟩
  subst hgk
  rw [List.mem_singleton] at hi
  subst hi
  have hkn : k < n := List.mem_range.mp hk
  refine ⟨Int.natCast_nonneg k, by exact_mod_cast hkn, ?_⟩
  refine List.mem_filter.mpr ⟨List.mem_singleton_self _, ?_⟩
  exact decide_eq_true_eq.mpr (by exact_mod_cast hkn)

/-- Witness for C8 as amended, at a one-article run. -/
theorem c8_effective_indices_in_range_witness :
    0 ≤ (0 : Int) ∧ (0 : Int) < ((1 : Nat) : Int) ∧
      (0 : Int) ∈ selectionFilter 1 [0] :=
  c8_effective_indices_in_range (fun _ => Except.ok "x") 1 [0] 0
    (by decide) (by decide)

/-- Claim C9, counterexample: an extracted content of exactly 100
characters reaches at least 100 characters, yet the entry is dropped,
because the code requires `len(content) > 100` strictly. -/
theorem c9_counterexample_hundred_chars_dropped :
    (String.mk (List.replicate 100 'a')).length = 100 ∧
    feedCollect "BBC News" [("t", String.mk (List.replicate 100 'a'))] =
      [] := by decide

/-- Claim C9 as amended: among the first 5 entries consumed per feed, an
entry is collected exactly when its extracted content is strictly longer
than 100 characters (empty and up-to-100-character results are treated
as extraction failure and dropped), and a collected article stores the
content truncated to the fixed 2000-character cap. -/
theorem c9_feed_collection_characterization
    (feedName : String) (entries : List (String × String)) :
    feedCollect feedName entries =
      (entries.take 5).filterMap fun e =>
        if 100 < e.2.length then
          some ⟨e.1, feedName, pySlice e.2 2000⟩
        else none := by
  unfold feedCollect
  generalize entries.take 5 = l
  induction l with
  | nil => rfl
  | cons e rest ih =>
    simp only [List.foldr_cons, List.filterMap_cons]
    by_cases hl : 100 < e.2.length
    · have hne : e.2 ≠ "" := by
        intro hEq
        rw [hEq] at hl
        exact absurd hl (by decide)
      rw [if_pos ⟨hne, hl⟩, if_pos hl, ih]
    · have hcon : ¬ (e.2 ≠ "" ∧ e.2.length > 100) := fun hc => hl hc.2
      rw [if_neg hcon, if_neg hl, ih]

/-- Claim C10: when `generate_unified_report` returns a successful
(section-complete) report shorter than 400 characters, the orchestrator
triggers exactly one additional regeneration — two generation calls in
total — and accepts the regenerated report. -/
theorem c10_short_report_single_regeneration
    (gen : Nat → Nat → Except Unit String)
    (_hvalid : validateReport (generateUnifiedReport (gen 0)).value = true)
    (hshort : (generateUnifiedReport (gen 0)).value.length < 400) :
    (reportWithRegen gen).2 = 2 ∧
    (reportWithRegen gen).1 = (generateUnifiedReport (gen 1)).value := by
  have hiteration : reportWithRegen gen =
      ((generateUnifiedReport (gen 1)).value, 2) := by
    unfold reportWithRegen
    simp [hshort]
  rw [hiteration]
  exact ⟨rfl, rfl⟩

/-- Witness for C10 at a concrete short but section-complete report. -/
theorem c10_short_report_single_regeneration_witness :
    (reportWithRegen fun _ _ => Except.ok
        "Verified Facts / Conflict Analysis / Further Research Needed / Conclusion").2
      = 2 ∧
    (reportWithRegen fun _ _ => Except.ok
        "Verified Facts / Conflict Analysis / Further Research Needed / Conclusion").1
      = (generateUnifiedReport fun _ => Except.ok
          "Verified Facts / Conflict Analysis / Further Research Needed / Conclusion").value :=
  c10_short_report_single_regeneration
    (fun _ _ => Except.ok
      "Verified Facts / Conflict Analysis / Further Research Needed / Conclusion")
    (by decide) (by decide)

example : clusterFormation 3 (PyVal.pstr "whatever") = [[0], [1], [2]] := by decide

example : processValidClusters [⟨"headline", "BBC News", "body"⟩]
    [(fun _ => Except.ok "analysis", fun _ _ => Except.ok "junk", [0])] =
    [⟨"headline", ["BBC News"], reportFailureMarker⟩] := by decide

example : processValidClusters [⟨"headline", "BBC News", "body"⟩]
    [(fun _ => Except.error (), fun _ _ => Except.ok "junk", [0])] = [] := by decide

example : selectionFilter 1 [-1] = [-1] := by decide

example : feedCollect "F" [("t", String.mk (List.replicate 100 'a'))] = [] := by decide

example : feedCollect "F" [("t", String.mk (List.replicate 101 'a'))] =
    [⟨"t", "F", String.mk (List.replicate 101 'a')⟩] := by decide

example : validateReport "x Verified Facts y Conflict Analysis z Further Research Needed w Conclusion" = true := by decide

example : validateReport reportFailureMarker = false := by decide

example : (llmGenerate fun _ => Except.ok "hello").value = "hello" := by decide

example : (llmGenerate fun _ => Except.error ()).value = llmFailureSentinel := by decide

example : (llmGenerate fun _ => Except.error ()).sleeps =
    [((3 : ℚ) / 2) ^ 0, ((3 : ℚ) / 2) ^ 1, ((3 : ℚ) / 2) ^ 2] := rfl

example : (generateUnifiedReport fun _ => Except.ok "junk").value = reportFailureMarker := by decide

example : (generateUnifiedReport fun _ => Except.ok "junk").sleeps =
    [(2 : ℚ) ^ 0, (2 : ℚ) ^ 1, (2 : ℚ) ^ 2] := rfl
